import Mathlib

/-!
Shallow embedding of the SHOPNET-Deals client's non-UI logic, translated
from the TypeScript source:

* src/app/Favoris.tsx      - discover feed (DiscoverScreen): cache loader,
  deduplicating paginator, favorites ledger, search screen history and
  search-results pagination;
* src/app/PromoProducts.tsx - promo list: cache loader and slice pagination;
* src/unnamed/part_002      - shop-detail screen: product-list pagination and
  the haversine distance function;
* src/unnamed/part_003      - all-shops screen: cache loader and slice
  pagination.

Asynchronous storage and network effects are modelled by passing the read
value (or the outcome of the request) explicitly; component state updated
through React setters is modelled as a record on which each handler acts as
a pure transition function.  Numbers are modelled as follows: epoch
milliseconds as integers, monetary amounts as rationals, geographic
coordinates and distances as real numbers.
-/

namespace Discover

/-- Embedded seller summary of the Product type in src/app/Favoris.tsx. -/
structure Seller where
  id : String
  name : String
  avatar : Option String
  city : Option String
deriving DecidableEq, Repr

/-- Product type of src/app/Favoris.tsx (lines 3202-3227). -/
structure Product where
  id : String
  title : String
  description : String
  price : ℚ
  original_price : Option ℚ
  images : List String
  likes : ℕ
  shares : ℕ
  comments : ℕ
  isLiked : Bool
  isPromotion : Bool
  is_boosted : Bool
  is_featured : Bool
  category : String
  condition : String
  stock : ℕ
  location : String
  created_at : String
  seller : Seller
deriving DecidableEq, Repr

/-- Shop type of src/app/Favoris.tsx (lines 3229-3241). -/
structure Shop where
  id : ℤ
  nom : String
  logo : String
  description : String
  ville : String
  pays : String
  latitude : String
  longitude : String
  type_boutique : String
  date_activation : Option String
  distance : ℚ
deriving DecidableEq, Repr

/-- FavoriteItem: the denormalized snapshot written by addFavorite
(src/app/Favoris.tsx lines 3278-3285). -/
structure FavoriteItem where
  id : String
  title : String
  price : ℚ
  image : String
  sellerName : String
  addedAt : ℤ
deriving DecidableEq, Repr

/-- Outcome of reading the favorites key from AsyncStorage: the key may be
absent (null), the stored string may fail to parse (the catch branch), or a
list may be stored. -/
inductive StorageRead where
  | absent : StorageRead
  | corrupt : StorageRead
  | stored : List FavoriteItem → StorageRead
deriving DecidableEq, Repr

/-- getFavorites (src/app/Favoris.tsx lines 3267-3272): returns the parsed
list when present, and the empty list when the key is absent or the read or
parse throws. -/
def getFavorites : StorageRead → List FavoriteItem
  | .absent => []
  | .corrupt => []
  | .stored l => l

/-- Snapshot built by addFavorite from a product: images[0] with empty-string
fallback, seller name with the Vendeur fallback for an empty name, and the
current epoch-millisecond time. -/
def mkFavoriteItem (product : Product) (now : ℤ) : FavoriteItem :=
  { id := product.id
    title := product.title
    price := product.price
    image := (product.images.head?.getD "")
    sellerName := if product.seller.name = "" then "Vendeur" else product.seller.name
    addedAt := now }

/-- addFavorite (src/app/Favoris.tsx lines 3274-3289), acting on the list
read from storage: no-op when some entry already has the product's id, else
prepend the snapshot. -/
def addFavorite (favorites : List FavoriteItem) (product : Product) (now : ℤ) :
    List FavoriteItem :=
  if favorites.any (fun fav => fav.id = product.id) then favorites
  else mkFavoriteItem product now :: favorites

/-- removeFavorite (src/app/Favoris.tsx lines 3291-3297): keep exactly the
entries whose id differs from the removed one. -/
def removeFavorite (favorites : List FavoriteItem) (productId : String) :
    List FavoriteItem :=
  favorites.filter (fun fav => fav.id ≠ productId)

/-- isFavorite (src/app/Favoris.tsx lines 3299-3304): membership test over
the list obtained by getFavorites; a throwing read resolves to false through
the empty list. -/
def isFavorite (r : StorageRead) (productId : String) : Bool :=
  (getFavorites r).any (fun fav => fav.id = productId)

/-- ITEMS_PER_PAGE of src/app/Favoris.tsx line 3179. -/
def ITEMS_PER_PAGE : ℕ := 10

/-- INITIAL_LIMIT of src/app/Favoris.tsx line 3180. -/
def INITIAL_LIMIT : ℕ := 50

/-- CACHE_EXPIRY of src/app/Favoris.tsx line 3182: five minutes in
epoch milliseconds. -/
def CACHE_EXPIRY : ℤ := 5 * 60 * 1000

/-- CacheData envelope of src/app/Favoris.tsx lines 3250-3255. -/
structure CacheData where
  timestamp : ℤ
  products : List Product
  shops : List Shop
  trending : List Product
deriving DecidableEq, Repr

/-- loadCache of the discover screen (src/app/Favoris.tsx lines 3363-3376):
an absent or unreadable blob yields null, a present envelope is returned
exactly when now minus its timestamp is below CACHE_EXPIRY.  The stored
argument is the parsed AsyncStorage read, none covering both the missing key
and the catch branch. -/
def loadCache (stored : Option CacheData) (now : ℤ) : Option CacheData :=
  match stored with
  | none => none
  | some cache => if now - cache.timestamp < CACHE_EXPIRY then some cache else none

/-- Component state of DiscoverScreen that the claims mention: the two
in-memory product lists, the page counter, the pagination flags, the two
side sections and the persisted cache envelope. -/
structure FeedState where
  allProducts : List Product
  feedProducts : List Product
  page : ℕ
  hasMore : Bool
  loadingMore : Bool
  shops : List Shop
  trending : List Product
  cache : Option CacheData
deriving DecidableEq, Repr

/-- loadInitialData cache branch (src/app/Favoris.tsx lines 3345-3356): when
loadCache yields an envelope its payload populates the view state, the feed
being the first ITEMS_PER_PAGE products; otherwise the state is untouched. -/
def loadInitialData (s : FeedState) (stored : Option CacheData) (now : ℤ) :
    FeedState :=
  match loadCache stored now with
  | some cached =>
      { s with
        allProducts := cached.products
        feedProducts := cached.products.take ITEMS_PER_PAGE
        shops := cached.shops
        trending := cached.trending }
  | none => s

/-- Outcome of the GET /products request inside fetchProducts: the fetch or
JSON parse may throw, the response may carry success = false, or it succeeds
with a product list (already formatted, favorite-flagged and, on page one,
shuffled) and the reported totalPages. -/
inductive FetchOutcome where
  | throwErr : FetchOutcome
  | notSuccess : FetchOutcome
  | ok : List Product → ℕ → FetchOutcome
deriving DecidableEq, Repr

/-- Deduplicating append of fetchProducts (src/app/Favoris.tsx lines
3469-3479): incoming products whose id is already present in the previous
list are filtered out before appending. -/
def appendDedup (prev incoming : List Product) : List Product :=
  let existingIds := prev.map Product.id
  let newProducts := incoming.filter (fun p => !(existingIds.contains p.id))
  prev ++ newProducts

/-- fetchProducts (src/app/Favoris.tsx lines 3443-3487) as a state
transition.  A thrown error or an unsuccessful response changes nothing (the
catch branch only logs).  On success page one replaces both lists and
rewrites the cache envelope, later pages append with deduplication; the page
counter and hasMore (pageNum below totalPages, an absent or zero totalPages
counting as one) are updated in both cases. -/
def fetchProducts (s : FeedState) (pageNum : ℕ) (outcome : FetchOutcome)
    (now : ℤ) : FeedState :=
  match outcome with
  | .throwErr => s
  | .notSuccess => s
  | .ok products totalPages =>
      if pageNum = 1 then
        { s with
          allProducts := products
          feedProducts := products.take ITEMS_PER_PAGE
          cache := some
            { timestamp := now
              products := products
              shops := s.shops
              trending := s.trending }
          page := pageNum
          hasMore := decide (pageNum < if totalPages = 0 then 1 else totalPages) }
      else
        { s with
          allProducts := appendDedup s.allProducts products
          feedProducts := appendDedup s.feedProducts products
          page := pageNum
          hasMore := decide (pageNum < if totalPages = 0 then 1 else totalPages) }

/-- loadMoreProducts (src/app/Favoris.tsx lines 3562-3567): only when the
loadingMore flag is down and hasMore is up does it raise the flag, fetch the
next page and lower the flag again (the finally clause); otherwise it is a
no-op. -/
def loadMoreProducts (s : FeedState) (outcome : FetchOutcome) (now : ℤ) :
    FeedState :=
  if !s.loadingMore && s.hasMore then
    let s1 := { s with loadingMore := true }
    let s2 := fetchProducts s1 (s1.page + 1) outcome now
    { s2 with loadingMore := false }
  else s

end Discover

/-- Embedding of the JavaScript String.prototype.trim primitive: drop
whitespace characters from both ends.  Defined by structural recursion over
the character list so that concrete instances evaluate inside the kernel. -/
def jsTrim (s : String) : String :=
  ⟨((s.data.dropWhile Char.isWhitespace).reverse.dropWhile
      Char.isWhitespace).reverse⟩

/-- Embedding of the JavaScript String.prototype.toLowerCase primitive:
lowercase every character. -/
def jsToLower (s : String) : String :=
  ⟨s.data.map Char.toLower⟩

namespace SearchResults

/-- Result-list state of the search screen in src/app/Favoris.tsx. -/
structure SearchState where
  products : List Discover.Product
  page : ℕ
  hasMore : Bool
deriving DecidableEq, Repr

/-- Success branch of handleSearch (src/app/Favoris.tsx lines 1663-1670): a
reset replaces the result list, otherwise the processed results are appended
to the previous list unchanged; hasMore compares the reported current page
with total_pages and the page counter becomes currentPage plus one. -/
def handleSearch (s : SearchState) (reset : Bool)
    (processedResults : List Discover.Product) (currentPage totalPages : ℕ) :
    SearchState :=
  { products := if reset then processedResults else s.products ++ processedResults
    hasMore := decide (currentPage < totalPages)
    page := currentPage + 1 }

/-- saveSearchHistory (src/app/Favoris.tsx lines 1490-1509): an all-blank
query is ignored; otherwise the trimmed query is prepended, entries equal to
it after lowercasing are dropped, and the list is cut to ten entries. -/
def saveSearchHistory (query : String) (searchHistory : List String) :
    List String :=
  if jsTrim query = "" then searchHistory
  else
    (jsTrim query ::
      searchHistory.filter
        (fun item => jsToLower item ≠ jsToLower (jsTrim query))).take 10

end SearchResults

namespace ShopDetail

/-- Product-list update of fetchShopData (src/unnamed/part_002 lines
185-210): a reset replaces the list, otherwise the fetched page is appended
to the previous products with no filtering. -/
def appendProducts (prev incoming : List Discover.Product)
    (shouldReset : Bool) : List Discover.Product :=
  if shouldReset then incoming else prev ++ incoming

/-- Math.atan2 over the reals, the piecewise arctangent with quadrant
correction, used to embed the trigonometric call in calculateDistance. -/
noncomputable def atan2 (y x : ℝ) : ℝ :=
  if 0 < x then Real.arctan (y / x)
  else if x < 0 ∧ 0 ≤ y then Real.arctan (y / x) + Real.pi
  else if x < 0 ∧ y < 0 then Real.arctan (y / x) - Real.pi
  else if x = 0 ∧ 0 < y then Real.pi / 2
  else if x = 0 ∧ y < 0 then -(Real.pi / 2)
  else 0

/-- calculateDistance (src/unnamed/part_002 lines 156-168): the haversine
great-circle distance in kilometers between two points given in decimal
degrees, with Earth radius 6371 km, floating-point arithmetic modelled over
the reals. -/
noncomputable def calculateDistance (lat1 lon1 lat2 lon2 : ℝ) : ℝ :=
  let R : ℝ := 6371
  let dLat := (lat2 - lat1) * (Real.pi / 180)
  let dLon := (lon2 - lon1) * (Real.pi / 180)
  let a :=
    Real.sin (dLat / 2) * Real.sin (dLat / 2) +
      Real.cos (lat1 * (Real.pi / 180)) * Real.cos (lat2 * (Real.pi / 180)) *
        Real.sin (dLon / 2) * Real.sin (dLon / 2)
  let c := 2 * atan2 (Real.sqrt a) (Real.sqrt (1 - a))
  R * c

end ShopDetail

namespace AllShops

/-- Shop type of src/unnamed/part_003 lines 39-52. -/
structure Shop where
  id : ℤ
  nom : String
  logo : String
  description : String
  ville : String
  pays : String
  latitude : String
  longitude : String
  type_boutique : String
  date_activation : Option String
  distance : ℚ
  verified : Option Bool
deriving DecidableEq, Repr

/-- ITEMS_PER_PAGE of src/unnamed/part_003 line 25. -/
def ITEMS_PER_PAGE : ℕ := 5

/-- CACHE_EXPIRY of src/unnamed/part_003 line 24. -/
def CACHE_EXPIRY : ℤ := 5 * 60 * 1000

/-- loadCache of the all-shops screen (src/unnamed/part_003 lines 104-117):
the envelope stores a timestamp and the shop list, and the data field is
returned exactly when the envelope is younger than CACHE_EXPIRY. -/
def loadCache (stored : Option (ℤ × List Shop)) (now : ℤ) :
    Option (List Shop) :=
  match stored with
  | none => none
  | some (ts, data) => if now - ts < CACHE_EXPIRY then some data else none

/-- applyPagination (src/unnamed/part_003 lines 131-136): slice the full
list from index zero to pageNum times ITEMS_PER_PAGE as the displayed list,
and report more pages exactly when that end index is below the list
length. -/
def applyPagination (shops : List Shop) (pageNum : ℕ) :
    List Shop × Bool :=
  let start := 0
  let stop := pageNum * ITEMS_PER_PAGE
  ((shops.drop start).take (stop - start), decide (stop < shops.length))

end AllShops

namespace PromoProducts

/-- Product type of src/app/PromoProducts.tsx lines 29-41. -/
structure Product where
  id : String
  title : String
  price : ℚ
  original_price : Option ℚ
  images : List String
  isPromotion : Bool
  location : String
  sellerName : String
  sellerAvatar : Option String
deriving DecidableEq, Repr

/-- ITEMS_PER_PAGE of src/app/PromoProducts.tsx line 26. -/
def ITEMS_PER_PAGE : ℕ := 5

/-- CACHE_EXPIRY of src/app/PromoProducts.tsx line 25. -/
def CACHE_EXPIRY : ℤ := 5 * 60 * 1000

/-- loadCache of the promo-products screen (src/app/PromoProducts.tsx lines
81-94): same envelope shape and freshness test as the all-shops screen. -/
def loadCache (stored : Option (ℤ × List Product)) (now : ℤ) :
    Option (List Product) :=
  match stored with
  | none => none
  | some (ts, data) => if now - ts < CACHE_EXPIRY then some data else none

/-- applyPagination (src/app/PromoProducts.tsx lines 108-113). -/
def applyPagination (products : List Product) (pageNum : ℕ) :
    List Product × Bool :=
  let start := 0
  let stop := pageNum * ITEMS_PER_PAGE
  ((products.drop start).take (stop - start), decide (stop < products.length))

end PromoProducts

/-- Concrete product used to instantiate universally quantified theorems. -/
def productEx : Discover.Product :=
  { id := "1"
    title := "A"
    description := ""
    price := 10
    original_price := none
    images := ["i"]
    likes := 0
    shares := 0
    comments := 0
    isLiked := false
    isPromotion := false
    is_boosted := false
    is_featured := false
    category := "c"
    condition := "neuf"
    stock := 1
    location := ""
    created_at := ""
    seller := { id := "s", name := "S", avatar := none, city := none } }

/-- Second concrete product, with a different identifier. -/
def productEx2 : Discover.Product :=
  { productEx with id := "2" }

/-- Concrete discover-feed state whose load-more guard is raised. -/
def feedStateEx : Discover.FeedState :=
  { allProducts := [productEx]
    feedProducts := [productEx]
    page := 1
    hasMore := true
    loadingMore := true
    shops := []
    trending := []
    cache := none }

/-- Concrete discover-feed state ready for a load-more call. -/
def feedStateEx2 : Discover.FeedState :=
  { feedStateEx with loadingMore := false }

/-- Boolean check that a successful fetch outcome carries a page whose
product identifiers are pairwise distinct; failure outcomes check out
trivially. -/
def okPageIdsNodup : Discover.FetchOutcome → Bool
  | .ok ps _ => decide (ps.map Discover.Product.id).Nodup
  | _ => true

/-- Iterated load-more triggers on the discover feed: fold the
loadMoreProducts transition over a list of fetch outcomes paired with the
clock value at that call. -/
def runLoadMore (s : Discover.FeedState)
    (events : List (Discover.FetchOutcome × ℤ)) : Discover.FeedState :=
  events.foldl (fun st e => Discover.loadMoreProducts st e.1 e.2) s

/-- Eleven concrete pairwise-distinct nonblank queries. -/
def queriesEx : List String :=
  ["q01", "q02", "q03", "q04", "q05", "q06", "q07", "q08", "q09", "q10", "q11"]

/-- C3: favorites ledger round-trip.  For every product and every starting
persisted favorites list, after addFavorite the membership test isFavorite
on the product's id returns true, and after a subsequent removeFavorite it
returns false. -/
theorem favorites_round_trip (favorites : List Discover.FavoriteItem)
    (p : Discover.Product) (now : ℤ) :
    Discover.isFavorite (.stored (Discover.addFavorite favorites p now)) p.id = true
    ∧ Discover.isFavorite
        (.stored (Discover.removeFavorite
          (Discover.addFavorite favorites p now) p.id)) p.id = false := by
  constructor
  · simp only [Discover.isFavorite, Discover.getFavorites, Discover.addFavorite]
    by_cases h : favorites.any (fun fav => fav.id = p.id)
    · simp [h]
    · simp [h, Discover.mkFavoriteItem]
  · simp [Discover.isFavorite, Discover.getFavorites, Discover.removeFavorite,
      List.any_eq_true, List.mem_filter]

/-- C10: getFavorites is total.  An absent key and a failed read or parse
both yield the empty list, and isFavorite consequently answers false for
every identifier in those cases. -/
theorem getFavorites_total :
    Discover.getFavorites .absent = [] ∧ Discover.getFavorites .corrupt = []
    ∧ (∀ productId, Discover.isFavorite .absent productId = false)
    ∧ (∀ productId, Discover.isFavorite .corrupt productId = false) :=
  ⟨rfl, rfl, fun _ => rfl, fun _ => rfl⟩

/-- C7: when the discover-feed fetch throws or the response's success flag
is false, fetchProducts leaves the entire state unchanged: product lists,
page counter, hasMore and the persisted cache envelope all keep their prior
values. -/
theorem fetch_failure_no_change (s : Discover.FeedState) (pageNum : ℕ)
    (now : ℤ) :
    Discover.fetchProducts s pageNum .throwErr now = s
    ∧ Discover.fetchProducts s pageNum .notSuccess now = s :=
  ⟨rfl, rfl⟩

/-- C2: cache freshness.  For each of the three cache loaders a stored
envelope is returned exactly when now minus its timestamp is below five
minutes; an envelope four minutes old is returned (and, on the discover
screen, populates the initial render), an envelope six minutes old yields
null and its payload is not used. -/
theorem loadCache_fresh_iff (now ts : ℤ) (c : Discover.CacheData)
    (s : Discover.FeedState) (shopsData : List AllShops.Shop)
    (promoData : List PromoProducts.Product) :
    (Discover.loadCache (some c) now = some c ↔ now - c.timestamp < 5 * 60 * 1000)
    ∧ (AllShops.loadCache (some (ts, shopsData)) now = some shopsData ↔
        now - ts < 5 * 60 * 1000)
    ∧ (PromoProducts.loadCache (some (ts, promoData)) now = some promoData ↔
        now - ts < 5 * 60 * 1000)
    ∧ Discover.loadCache (some { c with timestamp := now - 4 * 60 * 1000 }) now
        = some { c with timestamp := now - 4 * 60 * 1000 }
    ∧ Discover.loadCache (some { c with timestamp := now - 6 * 60 * 1000 }) now
        = none
    ∧ Discover.loadInitialData s
        (some { c with timestamp := now - 4 * 60 * 1000 }) now
        = { s with
            allProducts := c.products
            feedProducts := c.products.take Discover.ITEMS_PER_PAGE
            shops := c.shops
            trending := c.trending }
    ∧ Discover.loadInitialData s
        (some { c with timestamp := now - 6 * 60 * 1000 }) now = s
    ∧ AllShops.loadCache (some (now - 4 * 60 * 1000, shopsData)) now
        = some shopsData
    ∧ AllShops.loadCache (some (now - 6 * 60 * 1000, shopsData)) now = none
    ∧ PromoProducts.loadCache (some (now - 4 * 60 * 1000, promoData)) now
        = some promoData
    ∧ PromoProducts.loadCache (some (now - 6 * 60 * 1000, promoData)) now
        = none := by
  have h4 : now - (now - 4 * 60 * 1000) < (5 * 60 * 1000 : ℤ) := by omega
  have h6 : ¬ now - (now - 6 * 60 * 1000) < (5 * 60 * 1000 : ℤ) := by omega
  refine ⟨?_, ?_, ?_, ?_, ?_, ?_, ?_, ?_, ?_, ?_, ?_⟩
  · simp only [Discover.loadCache, Discover.CACHE_EXPIRY]
    split <;> simp_all
  · simp only [AllShops.loadCache, AllShops.CACHE_EXPIRY]
    split <;> simp_all
  · simp only [PromoProducts.loadCache, PromoProducts.CACHE_EXPIRY]
    split <;> simp_all
  · simp [Discover.loadCache, Discover.CACHE_EXPIRY, h4]
  · simp [Discover.loadCache, Discover.CACHE_EXPIRY, h6]
  · simp [Discover.loadInitialData, Discover.loadCache, Discover.CACHE_EXPIRY, h4]
  · simp [Discover.loadInitialData, Discover.loadCache, Discover.CACHE_EXPIRY, h6]
  · simp [AllShops.loadCache, AllShops.CACHE_EXPIRY, h4]
  · simp [AllShops.loadCache, AllShops.CACHE_EXPIRY, h6]
  · simp [PromoProducts.loadCache, PromoProducts.CACHE_EXPIRY, h4]
  · simp [PromoProducts.loadCache, PromoProducts.CACHE_EXPIRY, h6]

/-- C9: on the all-shops and promo-products screens applyPagination shows
exactly the first five-times-pageNum elements of the fetched list, a prefix
of it in original order whose length is the minimum of that bound and the
list length, and reports more pages exactly when the bound is below the list
length.  Proved for every page number, which covers the claimed pages one
and up. -/
theorem applyPagination_prefix (L : List AllShops.Shop)
    (P : List PromoProducts.Product) (n : ℕ) :
    (AllShops.applyPagination L n).1 = L.take (5 * n)
    ∧ ((AllShops.applyPagination L n).1).length = min (5 * n) L.length
    ∧ ((AllShops.applyPagination L n).2 = true ↔ 5 * n < L.length)
    ∧ (PromoProducts.applyPagination P n).1 = P.take (5 * n)
    ∧ ((PromoProducts.applyPagination P n).1).length = min (5 * n) P.length
    ∧ ((PromoProducts.applyPagination P n).2 = true ↔ 5 * n < P.length) := by
  refine ⟨?_, ?_, ?_, ?_, ?_, ?_⟩ <;>
    simp [AllShops.applyPagination, PromoProducts.applyPagination,
      AllShops.ITEMS_PER_PAGE, PromoProducts.ITEMS_PER_PAGE,
      Nat.mul_comm n 5, List.length_take]

/-- C8: the discover-feed load-more trigger is a no-op whenever the
loadingMore flag is up or hasMore is down: product lists, page counter and
hasMore are left exactly as they were, so a re-entrant trigger during an
in-flight fetch (loadingMore true) never starts a second page fetch. -/
theorem loadMore_guard (s : Discover.FeedState)
    (outcome : Discover.FetchOutcome) (now : ℤ)
    (h : s.loadingMore = true ∨ s.hasMore = false) :
    Discover.loadMoreProducts s outcome now = s := by
  rcases h with h | h <;> simp [Discover.loadMoreProducts, h]

/-- Witness for loadMore_guard: a concrete state with the loadingMore flag
raised is left unchanged by a load-more trigger. -/
theorem loadMore_guard_witness :
    (feedStateEx.loadingMore = true ∨ feedStateEx.hasMore = false)
    ∧ Discover.loadMoreProducts feedStateEx .throwErr 0 = feedStateEx :=
  ⟨Or.inl rfl, loadMore_guard feedStateEx .throwErr 0 (Or.inl rfl)⟩

/-- C4: favorites insert is idempotent.  Starting from a well-formed
persisted list (at most one entry for the product's id), two consecutive
addFavorite calls leave exactly one entry with that id; addFavorite is a
no-op when an entry with the id is present, and otherwise prepends the
denormalized snapshot. -/
theorem addFavorite_idempotent (l : List Discover.FavoriteItem)
    (p : Discover.Product) (t1 t2 : ℤ)
    (huniq : l.countP (fun fav => fav.id = p.id) ≤ 1) :
    (Discover.addFavorite (Discover.addFavorite l p t1) p t2).countP
        (fun fav => fav.id = p.id) = 1
    ∧ (l.any (fun fav => fav.id = p.id) = true → Discover.addFavorite l p t1 = l)
    ∧ (l.any (fun fav => fav.id = p.id) = false →
        Discover.addFavorite l p t1 = Discover.mkFavoriteItem p t1 :: l) := by
  refine ⟨?_, ?_, ?_⟩
  · by_cases h : l.any (fun fav => fav.id = p.id)
    · have hpos : 0 < l.countP (fun fav => decide (fav.id = p.id)) := by
        rw [List.countP_pos_iff]
        simpa [List.any_eq_true] using h
      simp only [Discover.addFavorite, h, if_true]
      omega
    · have hfalse : (l.any fun fav => fav.id = p.id) = false := by
        simpa using h
      have hzero : l.countP (fun fav => decide (fav.id = p.id)) = 0 := by
        rw [List.countP_eq_zero]
        intro a ha
        have := List.any_eq_false.mp hfalse a ha
        simpa using this
      have hstep1 :
          Discover.addFavorite l p t1 = Discover.mkFavoriteItem p t1 :: l := by
        simp [Discover.addFavorite, hfalse]
      have hstep2 :
          Discover.addFavorite (Discover.mkFavoriteItem p t1 :: l) p t2
            = Discover.mkFavoriteItem p t1 :: l := by
        simp [Discover.addFavorite, Discover.mkFavoriteItem]
      rw [hstep1, hstep2, List.countP_cons_of_pos]
      · omega
      · simp [Discover.mkFavoriteItem]
  · intro h
    simp [Discover.addFavorite, h]
  · intro h
    simp [Discover.addFavorite, h]

/-- Witness for addFavorite_idempotent: adding a concrete product twice to
the empty persisted list leaves exactly one entry for its id. -/
theorem addFavorite_idempotent_witness :
    (([] : List Discover.FavoriteItem).countP
        (fun fav => fav.id = productEx.id) ≤ 1)
    ∧ ((Discover.addFavorite (Discover.addFavorite [] productEx 0) productEx 1).countP
          (fun fav => fav.id = productEx.id) = 1
        ∧ (([] : List Discover.FavoriteItem).any
              (fun fav => fav.id = productEx.id) = true →
            Discover.addFavorite [] productEx 0 = [])
        ∧ (([] : List Discover.FavoriteItem).any
              (fun fav => fav.id = productEx.id) = false →
            Discover.addFavorite [] productEx 0
              = Discover.mkFavoriteItem productEx 0 :: [])) :=
  ⟨by decide, addFavorite_idempotent [] productEx 0 1 (by decide)⟩

/-- C1 counterexample: the search-results paginator does not filter incoming
items against already-present identifiers.  With one product already shown
and a next page repeating that same product, the appended list holds the
identifier twice, refuting the claim that every paginator keeps each unique
identifier exactly once. -/
theorem search_paginator_duplicates :
    (SearchResults.handleSearch
        { products := [productEx], page := 1, hasMore := true }
        false [productEx] 2 3).products
      = [productEx, productEx]
    ∧ (SearchResults.handleSearch
        { products := [productEx], page := 1, hasMore := true }
        false [productEx] 2 3).products.countP
          (fun q => q.id = productEx.id) = 2 := by
  constructor
  · rfl
  · decide

/-- Deduplicating append preserves distinctness of identifiers: when the
previous list and the incoming page each carry pairwise distinct ids, so
does their deduplicated concatenation. -/
lemma appendDedup_nodup (prev incoming : List Discover.Product)
    (hprev : (prev.map Discover.Product.id).Nodup)
    (hinc : (incoming.map Discover.Product.id).Nodup) :
    ((Discover.appendDedup prev incoming).map Discover.Product.id).Nodup := by
  unfold Discover.appendDedup
  simp only [List.map_append]
  refine List.Nodup.append hprev ?_ ?_
  · exact List.Nodup.sublist
      (List.Sublist.map Discover.Product.id (List.filter_sublist incoming)) hinc
  · intro a ha hb
    obtain ⟨x, hx, rfl⟩ := List.mem_map.mp hb
    have hpred := (List.mem_filter.mp hx).2
    simp only [List.contains, Bool.not_eq_true', List.elem_eq_mem,
      decide_eq_false_iff_not, List.mem_map, not_exists] at hpred
    obtain ⟨y, hy, hyid⟩ := List.mem_map.mp ha
    exact hpred y ⟨hy, hyid⟩

/-- One load-more trigger preserves distinctness of identifiers in both
in-memory lists, provided a successful outcome carries a page with pairwise
distinct identifiers. -/
lemma loadMore_preserves_nodup (s : Discover.FeedState)
    (outcome : Discover.FetchOutcome) (now : ℤ)
    (hall : (s.allProducts.map Discover.Product.id).Nodup)
    (hfeed : (s.feedProducts.map Discover.Product.id).Nodup)
    (hok : okPageIdsNodup outcome = true) :
    (((Discover.loadMoreProducts s outcome now).allProducts.map
        Discover.Product.id).Nodup)
    ∧ (((Discover.loadMoreProducts s outcome now).feedProducts.map
        Discover.Product.id).Nodup) := by
  unfold Discover.loadMoreProducts
  split
  · cases outcome with
    | throwErr => exact ⟨hall, hfeed⟩
    | notSuccess => exact ⟨hall, hfeed⟩
    | ok products totalPages =>
        have hpage : (products.map Discover.Product.id).Nodup := by
          simpa [okPageIdsNodup] using hok
        simp only [Discover.fetchProducts]
        split
        · refine ⟨hpage, ?_⟩
          exact List.Nodup.sublist
            (List.Sublist.map Discover.Product.id
              (List.take_sublist Discover.ITEMS_PER_PAGE products)) hpage
        · exact ⟨appendDedup_nodup _ _ hall hpage,
            appendDedup_nodup _ _ hfeed hpage⟩
  · exact ⟨hall, hfeed⟩

/-- C1 (amended): only the discover-feed paginator filters incoming items
against already-known identifiers.  For it, starting from in-memory lists
with pairwise distinct identifiers, after any number of consecutive
load-more calls whose successful responses each carry an internally
duplicate-free page - duplicates across pages being allowed and filtered
out - both accumulated lists still contain each unique identifier exactly
once.  The search-results and shop-detail paginators append unfiltered, as
the counterexample shows. -/
theorem discover_feed_dedup (s : Discover.FeedState)
    (events : List (Discover.FetchOutcome × ℤ))
    (hall : (s.allProducts.map Discover.Product.id).Nodup)
    (hfeed : (s.feedProducts.map Discover.Product.id).Nodup)
    (hok : ∀ e ∈ events, okPageIdsNodup e.1 = true) :
    ((runLoadMore s events).allProducts.map Discover.Product.id).Nodup
    ∧ ((runLoadMore s events).feedProducts.map Discover.Product.id).Nodup := by
  induction events generalizing s with
  | nil => exact ⟨hall, hfeed⟩
  | cons e es ih =>
      have hstep := loadMore_preserves_nodup s e.1 e.2 hall hfeed
        (hok e (by simp))
      have htail := ih (Discover.loadMoreProducts s e.1 e.2) hstep.1 hstep.2
        (fun x hx => hok x (by simp [hx]))
      simpa [runLoadMore] using htail

/-- Witness for discover_feed_dedup: a concrete feed holding one product,
receiving one load-more page that repeats that product next to a fresh one,
ends with each identifier exactly once in both lists. -/
theorem discover_feed_dedup_witness :
    ((feedStateEx2.allProducts.map Discover.Product.id).Nodup
      ∧ (feedStateEx2.feedProducts.map Discover.Product.id).Nodup
      ∧ (∀ e ∈ [((Discover.FetchOutcome.ok [productEx, productEx2] 5), (0 : ℤ))],
          okPageIdsNodup e.1 = true))
    ∧ ((runLoadMore feedStateEx2
          [((Discover.FetchOutcome.ok [productEx, productEx2] 5), (0 : ℤ))]).allProducts.map
            Discover.Product.id).Nodup
    ∧ ((runLoadMore feedStateEx2
          [((Discover.FetchOutcome.ok [productEx, productEx2] 5), (0 : ℤ))]).feedProducts.map
            Discover.Product.id).Nodup :=
  ⟨⟨by decide, by decide, by decide⟩,
    discover_feed_dedup feedStateEx2
      [((Discover.FetchOutcome.ok [productEx, productEx2] 5), (0 : ℤ))]
      (by decide) (by decide) (by decide)⟩

/-- Unfolding of saveSearchHistory on a query whose trimmed form is
nonempty. -/
lemma saveSearchHistory_eq (q : String) (h : List String) (hq : jsTrim q ≠ "") :
    SearchResults.saveSearchHistory q h =
      (jsTrim q :: h.filter (fun item => jsToLower item ≠ jsToLower (jsTrim q))).take 10 := by
  simp [SearchResults.saveSearchHistory, hq]

/-- Folding saveSearchHistory over queries that are pairwise distinct after
trimming and lowercasing, and all nonblank, yields exactly the ten most
recent trimmed queries, most recent first. -/
lemma saveSearchHistory_fold (qs : List String)
    (hdist : qs.Pairwise (fun a b => jsToLower (jsTrim a) ≠ jsToLower (jsTrim b)))
    (hne : ∀ x ∈ qs, jsTrim x ≠ "") :
    qs.foldl (fun acc x => SearchResults.saveSearchHistory x acc) [] =
      (qs.reverse.map jsTrim).take 10 := by
  induction qs using List.reverseRecOn with
  | nil => rfl
  | append_singleton qs q ih =>
      obtain ⟨hd1, -, hd3⟩ := List.pairwise_append.mp hdist
      have hq : jsTrim q ≠ "" := hne q (by simp)
      have hih := ih hd1 (fun x hx => hne x (by simp [hx]))
      rw [List.foldl_append]
      simp only [List.foldl_cons, List.foldl_nil]
      rw [hih, saveSearchHistory_eq q _ hq]
      have hfilter :
          ((qs.reverse.map jsTrim).take 10).filter
              (fun item => jsToLower item ≠ jsToLower (jsTrim q))
            = (qs.reverse.map jsTrim).take 10 := by
        rw [List.filter_eq_self]
        intro a ha
        have hmem : a ∈ qs.reverse.map jsTrim := List.take_subset _ _ ha
        obtain ⟨x, hx, rfl⟩ := List.mem_map.mp hmem
        have hxqs : x ∈ qs := by simpa using hx
        have hne' := hd3 x hxqs q (by simp)
        simpa using hne'
      rw [hfilter, List.reverse_append]
      simp only [List.reverse_cons, List.reverse_nil, List.nil_append,
        List.singleton_append, List.map_cons]
      rw [show (10:ℕ) = 9 + 1 from rfl, List.take_succ_cons, List.take_succ_cons,
        List.take_take]
      norm_num

/-- C5: search-history insertion.  For a query with nonblank trimmed form
the saved history has at most ten entries, starts with the trimmed query,
contains exactly one entry case-insensitively equal to it, and keeps the
remaining entries as an in-order selection of the previous history; folding
the insertion over pairwise case-insensitively distinct nonblank queries
keeps exactly the ten most recent, most recent first, so eleven distinct
queries retain the last ten and a repeated query moves to the front without
duplication. -/
theorem saveSearchHistory_spec (q : String) (h : List String) (qs : List String)
    (hq : jsTrim q ≠ "")
    (hdist : qs.Pairwise (fun a b => jsToLower (jsTrim a) ≠ jsToLower (jsTrim b)))
    (hne : ∀ x ∈ qs, jsTrim x ≠ "") :
    (SearchResults.saveSearchHistory q h).length ≤ 10
    ∧ (SearchResults.saveSearchHistory q h).head? = some (jsTrim q)
    ∧ (SearchResults.saveSearchHistory q h).countP
        (fun item => jsToLower item = jsToLower (jsTrim q)) = 1
    ∧ (SearchResults.saveSearchHistory q h).tail.Sublist h
    ∧ qs.foldl (fun acc x => SearchResults.saveSearchHistory x acc) [] =
        (qs.reverse.map jsTrim).take 10 := by
  have heq := saveSearchHistory_eq q h hq
  have hsplit :
      SearchResults.saveSearchHistory q h =
        jsTrim q ::
          (h.filter (fun item => jsToLower item ≠ jsToLower (jsTrim q))).take 9 := by
    rw [heq, show (10:ℕ) = 9 + 1 from rfl, List.take_succ_cons]
  refine ⟨?_, ?_, ?_, ?_, saveSearchHistory_fold qs hdist hne⟩
  · rw [heq]
    exact List.length_take_le _ _
  · rw [hsplit]
    rfl
  · rw [hsplit, List.countP_cons_of_pos _ _ (by simp)]
    have hzero :
        ((h.filter (fun item => jsToLower item ≠ jsToLower (jsTrim q))).take 9).countP
          (fun item => jsToLower item = jsToLower (jsTrim q)) = 0 := by
      rw [List.countP_eq_zero]
      intro a ha
      have hmem := List.take_subset _ _ ha
      have hpred := (List.mem_filter.mp hmem).2
      simpa using hpred
    omega
  · rw [hsplit, List.tail_cons]
    exact List.Sublist.trans (List.take_sublist _ _) (List.filter_sublist _)

/-- Witness for saveSearchHistory_spec: a concrete nonblank query inserted
into a history containing a case-insensitive duplicate, and eleven concrete
distinct queries folded into an empty history. -/
theorem saveSearchHistory_spec_witness :
    (jsTrim " Foo " ≠ ""
      ∧ queriesEx.Pairwise (fun a b => jsToLower (jsTrim a) ≠ jsToLower (jsTrim b))
      ∧ (∀ x ∈ queriesEx, jsTrim x ≠ ""))
    ∧ ((SearchResults.saveSearchHistory " Foo " ["bar", "FOO", "baz"]).length ≤ 10
      ∧ (SearchResults.saveSearchHistory " Foo " ["bar", "FOO", "baz"]).head?
          = some (jsTrim " Foo ")
      ∧ (SearchResults.saveSearchHistory " Foo " ["bar", "FOO", "baz"]).countP
          (fun item => jsToLower item = jsToLower (jsTrim " Foo ")) = 1
      ∧ (SearchResults.saveSearchHistory " Foo " ["bar", "FOO", "baz"]).tail.Sublist
          ["bar", "FOO", "baz"]
      ∧ queriesEx.foldl (fun acc x => SearchResults.saveSearchHistory x acc) [] =
          (queriesEx.reverse.map jsTrim).take 10) :=
  ⟨⟨by decide, by decide, by decide⟩,
    saveSearchHistory_spec " Foo " ["bar", "FOO", "baz"] queriesEx
      (by decide) (by decide) (by decide)⟩

/-- Same start and end point yield distance zero: both angle differences
vanish, the haversine term is zero and atan2 of zero over one is zero. -/
lemma calculateDistance_self (lat lng : ℝ) :
    ShopDetail.calculateDistance lat lng lat lng = 0 := by
  unfold ShopDetail.calculateDistance
  simp [ShopDetail.atan2, sub_self]

/-- Two points on the same meridian one degree of latitude apart are
6371 times pi over 180 kilometers apart under the embedded haversine
formula. -/
lemma calculateDistance_one_degree :
    ShopDetail.calculateDistance 0 0 1 0 = 6371 * (Real.pi / 180) := by
  unfold ShopDetail.calculateDistance
  simp only [sub_zero, zero_sub, one_mul, zero_mul, neg_zero, zero_div,
    Real.sin_zero, Real.cos_zero, mul_zero, mul_one, add_zero, zero_add]
  have tpos : (0:ℝ) < Real.pi / 180 / 2 := by positivity
  have tlt : Real.pi / 180 / 2 < Real.pi / 2 := by nlinarith [Real.pi_pos]
  have tle : Real.pi / 180 / 2 ≤ Real.pi := by nlinarith [Real.pi_pos]
  have hsin : 0 ≤ Real.sin (Real.pi / 180 / 2) :=
    Real.sin_nonneg_of_nonneg_of_le_pi tpos.le tle
  have hcos : 0 < Real.cos (Real.pi / 180 / 2) :=
    Real.cos_pos_of_mem_Ioo ⟨by nlinarith [Real.pi_pos], tlt⟩
  have hpy : 1 - Real.sin (Real.pi / 180 / 2) * Real.sin (Real.pi / 180 / 2)
      = Real.cos (Real.pi / 180 / 2) * Real.cos (Real.pi / 180 / 2) := by
    have h := Real.sin_sq_add_cos_sq (Real.pi / 180 / 2)
    nlinarith [h]
  rw [hpy, Real.sqrt_mul_self hsin, Real.sqrt_mul_self hcos.le]
  have hat :
      ShopDetail.atan2 (Real.sin (Real.pi / 180 / 2))
          (Real.cos (Real.pi / 180 / 2)) = Real.pi / 180 / 2 := by
    rw [ShopDetail.atan2, if_pos hcos, ← Real.tan_eq_sin_div_cos,
      Real.arctan_tan (by nlinarith [Real.pi_pos]) tlt]
  rw [hat]
  ring

/-- C6: calculateDistance is the haversine great-circle distance with Earth
radius 6371 km: the distance from any point to itself is zero (in
particular at the origin), and two points one degree of latitude apart on
the same meridian are 6371 times pi over 180, roughly 111.19, kilometers
apart, within one kilometer of 111. -/
theorem calculateDistance_spec :
    ShopDetail.calculateDistance 0 0 0 0 = 0
    ∧ (∀ lat lng : ℝ, ShopDetail.calculateDistance lat lng lat lng = 0)
    ∧ ShopDetail.calculateDistance 0 0 1 0 = 6371 * (Real.pi / 180)
    ∧ |ShopDetail.calculateDistance 0 0 1 0 - 111| < 1 := by
  refine ⟨calculateDistance_self 0 0, calculateDistance_self,
    calculateDistance_one_degree, ?_⟩
  rw [calculateDistance_one_degree, abs_lt]
  constructor <;> nlinarith [Real.pi_gt_d2, Real.pi_lt_d2]
